import Mathlib

/-!
Shallow embedding of `application.py` (reddit-pokemongo-py).

The program is a single-threaded OAuth2 bot: a `Token` value object and a
`PokemonGoFriendsBot` controller that authorizes, exchanges a code for a
token, and then loops posting and deleting a comment.

Modelling conventions:
- JSON values are strings or integers (`JsonVal`); a decoded JSON body is an
  association list (`Json`).  `requests.Response` is modelled by
  `HttpResponse`: its `status_code`, the result of `.json()` (`none` when the
  body does not parse), and the resolved `url`.
- Python exceptions (KeyError on a missing dict key, AttributeError on a
  `None` dereference, TypeError/ValueError on bad conversions) are modelled
  with `Except`; bot-level operations return `Except (String × BotState) _`
  where the error carries the bot state at the moment of the raise.
- `datetime.now()` and `uuid4()` are oracles: every operation that reads the
  clock takes an explicit `now : Int` (seconds), and the authorize nonce is a
  parameter.  The dataclass default `issued_at: datetime = datetime.now()`
  is evaluated once, when the class is defined; that single timestamp is the
  explicit `classDefTime` parameter threaded to the construction sites.
- Each network call is an oracle: the function takes the `HttpResponse` the
  server would return for that call.
-/

inductive JsonVal where
  | str (s : String)
  | num (n : Int)
deriving DecidableEq, Repr

/-- Python `str(v)` on a JSON scalar, as used by f-string interpolation. -/
def JsonVal.pyStr : JsonVal → String
  | .str s => s
  | .num n => toString n

/-- Python truthiness of a JSON scalar (`""` and `0` are falsy). -/
def JsonVal.truthy : JsonVal → Bool
  | .str s => decide (s ≠ "")
  | .num n => decide (n ≠ 0)

/-- Python integer arithmetic on a stored JSON value: only an int works, a
string raises TypeError.  (Used where the source stores a raw JSON value
into a field that is later used arithmetically.) -/
def JsonVal.getNum : JsonVal → Except String Int
  | .num n => .ok n
  | .str _ => .error "TypeError: unsupported operand type"

/-- Python `int(v)`: an int passes through, a numeric string parses,
anything else raises ValueError. -/
def pyInt : JsonVal → Except String Int
  | .num n => .ok n
  | .str s =>
    match s.toInt? with
    | some n => .ok n
    | none => .error "ValueError: invalid literal for int"

abbrev Json := List (String × JsonVal)

/-- Python dict access `j[k]`: KeyError when the key is missing. -/
def dictGet (j : Json) (k : String) : Except String JsonVal :=
  match j.find? (fun p => p.1 == k) with
  | some p => .ok p.2
  | none => .error ("KeyError: " ++ k)

/-- A `requests` response: status code, decoded JSON body (`none` when
`.json()` would raise), and the resolved URL. -/
structure HttpResponse where
  status_code : Int
  body : Option Json := none
  url : String := ""
deriving DecidableEq, Repr

/-- The observable pieces of an outgoing HTTP request (query params, form
data, Authorization header). -/
structure HttpRequest where
  url : String
  params : List (String × String) := []
  data : List (String × String) := []
  authorization : String := ""
deriving DecidableEq, Repr

/-- `Token` dataclass, fields in source order.  `issued_at` has no Lean-side
default: the Python default is a single timestamp captured at class
definition time, passed explicitly as `classDefTime` at construction sites
that omit the argument. -/
structure Token where
  access_token : JsonVal
  expires_in : Int
  scope : JsonVal
  refresh_token : JsonVal
  token_type : String := "bearer"
  issued_at : Int
deriving DecidableEq, Repr

/-- `Token.__str__`: `f"{self.token_type} {self.access_token}"`. -/
def Token.pyStr (t : Token) : String :=
  t.token_type ++ " " ++ t.access_token.pyStr

/-- `Token.is_expired` property:
`(datetime.now() - self.issued_at).total_seconds() >= self.expires_in - 60`.
Pure: a function of the token and the clock reading only. -/
def Token.is_expired (t : Token) (now : Int) : Bool :=
  decide (now - t.issued_at ≥ t.expires_in - 60)

/-- `Token.refresh(response)`: assigns `response['access_token']`,
`response['expires_in']`, `response['scope']` in source order, then
`issued_at = datetime.now()`.  The source stores `response['expires_in']`
unconverted; a non-integer value would raise TypeError at the next
`is_expired` arithmetic, which the model surfaces at the assignment via
`JsonVal.getNum`. -/
def Token.refresh (t : Token) (response : Json) (now : Int) : Except String Token :=
  match dictGet response "access_token" with
  | .error err => .error err
  | .ok a =>
    match (dictGet response "expires_in").bind JsonVal.getNum with
    | .error err => .error err
    | .ok e =>
      match dictGet response "scope" with
      | .error err => .error err
      | .ok s =>
        .ok { t with access_token := a, expires_in := e, scope := s, issued_at := now }

/-- Mutable state of `PokemonGoFriendsBot`. -/
structure BotState where
  client_id : String
  client_secret : String
  message : String
  token : Option Token := none
  last_comment_fullname : Option JsonVal := none
deriving DecidableEq, Repr

/-- A raised Python exception: its message and the bot state at raise time. -/
abbrev PyRaise := String × BotState

def liftRaise {α : Type} (b : BotState) : Except String α → Except PyRaise α
  | .ok a => .ok a
  | .error e => .error (e, b)

def COMMON_API_URI : String := "https://www.reddit.com/api/v1"
def OAUTH_API_URI : String := "https://oauth.reddit.com/api"
def REDIRECT_URI : String := "https://www.reddit.com/r/PokemonGoFriends"

/-- `f"{self.token}"`: Python renders `None` as `"None"`, otherwise uses
`Token.__str__`. -/
def pyStrOptToken : Option Token → String
  | none => "None"
  | some t => t.pyStr

/-- Python truthiness of `self.last_comment_fullname`. -/
def truthyOpt : Option JsonVal → Bool
  | none => false
  | some v => v.truthy

/-- `authorize_application`: builds the authorize request (query params in
source order, `uuidState` standing for the fresh `uuid4()` nonce), and on
HTTP 200 opens the response's resolved URL (second component) and returns
true; otherwise returns false and opens nothing.  Never raises: the result
is a plain triple, not `Except`. -/
def authorize_application (b : BotState) (uuidState : String) (resp : HttpResponse) :
    Bool × Option String × HttpRequest :=
  let req : HttpRequest := {
    url := COMMON_API_URI ++ "/authorize"
    params := [
      ("client_id", b.client_id),
      ("response_type", "code"),
      ("state", uuidState),
      ("redirect_uri", REDIRECT_URI),
      ("duration", "permanent"),
      ("scope", "edit submit")] }
  if resp.status_code = 200 then (true, some resp.url, req)
  else (false, none, req)

set_option linter.unusedVariables false in
/-- `authenticate_session(code, is_refresh)`.  The refresh branch first
dereferences `self.token.refresh_token` (AttributeError when the token is
absent).  On HTTP 200: an unparseable body returns false; otherwise the
refresh branch mutates the token in place via `Token.refresh`, and the
first-time branch constructs a new `Token`, evaluating the constructor
arguments in source order (`access_token`, `int(expires_in)`, `scope`,
`refresh_token`) with `issued_at` left to the dataclass default
`classDefTime`.  Non-200 returns false.  The unused `code` argument mirrors
the source signature (the code travels in the request body, which the
response oracle already accounts for). -/
def authenticate_session (b : BotState) (classDefTime : Int) (code : Option String)
    (is_refresh : Bool) (resp : HttpResponse) (now : Int) :
    Except PyRaise (Bool × BotState) :=
  if is_refresh then
    match b.token with
    | none => .error ("AttributeError: NoneType object has no attribute refresh_token", b)
    | some t =>
      if resp.status_code = 200 then
        match resp.body with
        | none => .ok (false, b)
        | some j =>
          match t.refresh j now with
          | .error e => .error (e, b)
          | .ok t2 => .ok (true, { b with token := some t2 })
      else .ok (false, b)
  else
    if resp.status_code = 200 then
      match resp.body with
      | none => .ok (false, b)
      | some j =>
        match liftRaise b (dictGet j "access_token") with
        | .error err => .error err
        | .ok a =>
          match liftRaise b ((dictGet j "expires_in").bind pyInt) with
          | .error err => .error err
          | .ok e =>
            match liftRaise b (dictGet j "scope") with
            | .error err => .error err
            | .ok s =>
              match liftRaise b (dictGet j "refresh_token") with
              | .error err => .error err
              | .ok r =>
                .ok (true, { b with token := some {
                  access_token := a, expires_in := e, scope := s, refresh_token := r,
                  token_type := "bearer", issued_at := classDefTime } })
    else .ok (false, b)

/-- `check_token_expiration`: AttributeError when no token is present; a
no-op when the token is not expired; otherwise calls
`authenticate_session(is_refresh=True)` and discards its boolean result.
The second component instruments whether a refresh call was made. -/
def check_token_expiration (b : BotState) (classDefTime : Int)
    (refreshResp : HttpResponse) (now : Int) : Except PyRaise (BotState × Bool) :=
  match b.token with
  | none => .error ("AttributeError: NoneType object has no attribute is_expired", b)
  | some t =>
    if !(t.is_expired now) then .ok (b, false)
    else
      match authenticate_session b classDefTime none true refreshResp now with
      | .error e => .error e
      | .ok (_, b2) => .ok (b2, true)

/-- The comment request built at lines 131-143: form data in source order
and the Authorization header `f"{self.token}"`. -/
def postRequest (b : BotState) : HttpRequest :=
  { url := OAUTH_API_URI ++ "/comment"
    data := [
      ("api_type", "json"),
      ("return_rtjson", "True"),
      ("text", b.message),
      ("thing_id", "t3_so87rb")]
    authorization := pyStrOptToken b.token }

/-- `post_comment`: guard by `check_token_expiration`; then on HTTP 200 with
a parseable body set `last_comment_fullname = r_json['name']` (KeyError when
missing) and return true; an unparseable 200 body or a non-200 status
returns false. -/
def post_comment (b : BotState) (classDefTime : Int) (refreshResp resp : HttpResponse)
    (now : Int) : Except PyRaise (Bool × BotState) :=
  match check_token_expiration b classDefTime refreshResp now with
  | .error e => .error e
  | .ok (b1, _) =>
    if resp.status_code = 200 then
      match resp.body with
      | none => .ok (false, b1)
      | some j =>
        match dictGet j "name" with
        | .error e => .error (e, b1)
        | .ok v => .ok (true, { b1 with last_comment_fullname := some v })
    else .ok (false, b1)

/-- `delete_comment`: guard by `check_token_expiration`; true on HTTP 200,
false otherwise. -/
def delete_comment (b : BotState) (classDefTime : Int) (refreshResp resp : HttpResponse)
    (now : Int) : Except PyRaise (Bool × BotState) :=
  match check_token_expiration b classDefTime refreshResp now with
  | .error e => .error e
  | .ok (b1, _) =>
    if resp.status_code = 200 then .ok (true, b1)
    else .ok (false, b1)

/-- One observable event of the `run` loop: a post attempt (with its boolean
outcome), the 15-minute sleep, a delete attempt (with its outcome), and the
15-second sleep. -/
inductive LoopEvent where
  | apiPost (ok : Bool)
  | sleepLong
  | apiDel (ok : Bool)
  | sleepShort
deriving DecidableEq, Repr

/-- Oracle data for one iteration of `run`: the clock readings and server
responses for the (possible) refresh and the post, then for the (possible)
refresh and the delete. -/
structure IterEnv where
  nowPost : Int
  refreshRespPost : HttpResponse
  postResp : HttpResponse
  nowDel : Int
  refreshRespDel : HttpResponse
  delResp : HttpResponse

/-- `run()`: `while True: post; if failed break; sleep(900); if
last_comment_fullname: delete; if failed break; sleep(15)`.
Fuel-indexed: the result is the list of events together with `true` when the
loop broke out of its own accord (`false` when fuel ran out mid-loop).
`i` counts iterations into the oracle `env`. -/
def run (classDefTime : Int) (env : Nat → IterEnv) :
    Nat → Nat → BotState → Except PyRaise (List LoopEvent × Bool)
  | 0, _, _ => .ok ([], false)
  | fuel + 1, i, b =>
    match post_comment b classDefTime (env i).refreshRespPost (env i).postResp (env i).nowPost with
    | .error e => .error e
    | .ok (false, _) => .ok ([.apiPost false], true)
    | .ok (true, b1) =>
      if truthyOpt b1.last_comment_fullname then
        match delete_comment b1 classDefTime (env i).refreshRespDel (env i).delResp (env i).nowDel with
        | .error e => .error e
        | .ok (false, _) => .ok ([.apiPost true, .sleepLong, .apiDel false], true)
        | .ok (true, b2) =>
          match run classDefTime env fuel (i + 1) b2 with
          | .error e => .error e
          | .ok (tr, halted) =>
            .ok (.apiPost true :: .sleepLong :: .apiDel true :: .sleepShort :: tr, halted)
      else
        match run classDefTime env fuel (i + 1) b1 with
        | .error e => .error e
        | .ok (tr, halted) => .ok (.apiPost true :: .sleepLong :: tr, halted)

/-- A failed post attempt, when it occurs in a trace, is the final event. -/
def postFailIsLast : List LoopEvent → Bool
  | [] => true
  | .apiPost false :: rest => rest.isEmpty
  | _ :: rest => postFailIsLast rest

theorem postFailIsLast_cons (x : LoopEvent) (rest : List LoopEvent)
    (hx : x ≠ .apiPost false) :
    postFailIsLast (x :: rest) = postFailIsLast rest := by
  cases x with
  | apiPost ok =>
    cases ok with
    | false => exact absurd rfl hx
    | true => rfl
  | sleepLong => rfl
  | apiDel ok => rfl
  | sleepShort => rfl

theorem run_postFailIsLast (classDefTime : Int) (env : Nat → IterEnv) :
    ∀ (fuel i : Nat) (b : BotState) (tr : List LoopEvent) (halted : Bool),
      run classDefTime env fuel i b = .ok (tr, halted) → postFailIsLast tr = true := by
  intro fuel
  induction fuel with
  | zero =>
    intro i b tr halted h
    simp only [run] at h
    cases h
    rfl
  | succ n ih =>
    intro i b tr halted h
    simp only [run] at h
    cases hpost : post_comment b classDefTime (env i).refreshRespPost (env i).postResp
        (env i).nowPost with
    | error e => rw [hpost] at h; cases h
    | ok p =>
      rw [hpost] at h
      obtain ⟨res, b1⟩ := p
      cases res with
      | false =>
        simp only at h
        cases h
        rfl
      | true =>
        simp only at h
        by_cases htr : truthyOpt b1.last_comment_fullname = true
        · rw [if_pos htr] at h
          cases hdel : delete_comment b1 classDefTime (env i).refreshRespDel (env i).delResp
              (env i).nowDel with
          | error e => rw [hdel] at h; cases h
          | ok q =>
            rw [hdel] at h
            obtain ⟨dres, b2⟩ := q
            cases dres with
            | false =>
              simp only at h
              cases h
              rfl
            | true =>
              simp only at h
              cases hrec : run classDefTime env n (i + 1) b2 with
              | error e => rw [hrec] at h; cases h
              | ok r =>
                rw [hrec] at h
                obtain ⟨tr2, halted2⟩ := r
                simp only at h
                cases h
                have := ih (i + 1) b2 tr2 _ hrec
                simpa [postFailIsLast] using this
        · rw [if_neg htr] at h
          cases hrec : run classDefTime env n (i + 1) b1 with
          | error e => rw [hrec] at h; cases h
          | ok r =>
            rw [hrec] at h
            obtain ⟨tr2, halted2⟩ := r
            simp only at h
            cases h
            have := ih (i + 1) b1 tr2 _ hrec
            simpa [postFailIsLast] using this

theorem postFailIsLast_suffix_nil :
    ∀ (pre : List LoopEvent) (tr suf : List LoopEvent),
      postFailIsLast tr = true → tr = pre ++ .apiPost false :: suf → suf = [] := by
  intro pre
  induction pre with
  | nil =>
    intro tr suf hlast heq
    subst heq
    simp only [List.nil_append, postFailIsLast, List.isEmpty_iff] at hlast
    exact hlast
  | cons x pre2 ih =>
    intro tr suf hlast heq
    subst heq
    by_cases hx : x = LoopEvent.apiPost false
    · subst hx
      simp only [List.cons_append, postFailIsLast, List.isEmpty_iff] at hlast
      exact absurd hlast (by simp)
    · rw [List.cons_append, postFailIsLast_cons x _ hx] at hlast
      exact ih _ suf hlast rfl

/-! Concrete fixtures for witnesses and counterexamples. -/

def tok0 : Token :=
  { access_token := .str "AT", expires_in := 3600,
    scope := .str "edit submit", refresh_token := .str "R",
    token_type := "bearer", issued_at := 0 }

def bot0 : BotState := { client_id := "cid", client_secret := "cs", message := "hello" }

def bot1 : BotState := { bot0 with token := some tok0 }

def R500 : HttpResponse := { status_code := 500 }

def R200noBody : HttpResponse := { status_code := 200 }

def respA : HttpResponse := { status_code := 200, body := some [
  ("access_token", .str "A"), ("expires_in", .num 3600),
  ("scope", .str "edit submit"), ("refresh_token", .str "R")] }

def respNoName : HttpResponse := { status_code := 200, body := some [("junk", .num 1)] }

def jRefresh : Json := [("access_token", .str "A2"), ("expires_in", .num 7200),
  ("scope", .str "s2")]

def env0 : Nat → IterEnv := fun _ =>
  { nowPost := 0, refreshRespPost := R500,
    postResp := R500, nowDel := 0, refreshRespDel := R500, delResp := R500 }

/-- Claim C1: for a token with expiry duration `expires_in` and issuance
timestamp `issued_at`, `is_expired` is false when the elapsed time is
`expires_in - 61` seconds and true when it is `expires_in - 60` seconds;
in general it is true exactly when the elapsed time is at least
`expires_in - 60`.  `Token.is_expired` is a pure function of the token and
the clock reading, so evaluating it does not modify the token. -/
theorem c1_token_expiry_boundary (t : Token) :
    t.is_expired (t.issued_at + (t.expires_in - 61)) = false
    ∧ t.is_expired (t.issued_at + (t.expires_in - 60)) = true
    ∧ ∀ now : Int, t.is_expired now = decide (now - t.issued_at ≥ t.expires_in - 60) := by
  refine ⟨?_, ?_, fun now => rfl⟩
  · simp only [Token.is_expired, decide_eq_false_iff_not]
    omega
  · simp only [Token.is_expired, decide_eq_true_eq]
    omega

/-- Claim C2: `Token.refresh` on a response containing `access_token`,
`expires_in` and `scope` overwrites exactly those three fields with the
response values and sets `issued_at` to the current time, leaving
`refresh_token` (and `token_type`) unchanged. -/
theorem c2_token_refresh_frame (t : Token) (response : Json) (now : Int)
    (a s : JsonVal) (e : Int)
    (ha : dictGet response "access_token" = .ok a)
    (he : dictGet response "expires_in" = .ok (.num e))
    (hs : dictGet response "scope" = .ok s) :
    t.refresh response now =
      .ok { t with access_token := a, expires_in := e, scope := s, issued_at := now }
    ∧ ∀ t2, t.refresh response now = .ok t2 →
        t2.refresh_token = t.refresh_token ∧ t2.token_type = t.token_type := by
  have h1 : t.refresh response now =
      .ok { t with access_token := a, expires_in := e, scope := s, issued_at := now } := by
    simp only [Token.refresh, ha, he, hs, Except.bind, JsonVal.getNum]
  refine ⟨h1, fun t2 h2 => ?_⟩
  rw [h1] at h2
  cases h2
  exact ⟨rfl, rfl⟩

/-- Witness for C2 at a concrete token and refresh response. -/
theorem c2_token_refresh_frame_witness :
    tok0.refresh jRefresh 100 =
      .ok { tok0 with
            access_token := .str "A2",
            expires_in := 7200,
            scope := .str "s2",
            issued_at := 100 } :=
  (c2_token_refresh_frame tok0 jRefresh 100 (.str "A2") (.str "s2") 7200
    rfl rfl rfl).1

/-- Claim C4: first-time `authenticate_session` returns false and leaves the
bot state (in particular the `token` field) unchanged, both on any non-200
status and on an HTTP 200 response whose body does not parse as JSON. -/
theorem c4_auth_session_soft_failures (b : BotState) (classDefTime : Int)
    (code : Option String) (resp : HttpResponse) (now : Int) :
    (resp.status_code ≠ 200 →
      authenticate_session b classDefTime code false resp now = .ok (false, b))
    ∧ (resp.status_code = 200 → resp.body = none →
      authenticate_session b classDefTime code false resp now = .ok (false, b)) := by
  constructor
  · intro h
    simp [authenticate_session, h]
  · intro h hb
    simp [authenticate_session, h, hb]

/-- Witness for C4: a 500 status and a 200 status with an unparseable body,
both against a fresh controller with no token. -/
theorem c4_auth_session_soft_failures_witness :
    authenticate_session bot0 0 (some "c") false R500 0 = .ok (false, bot0)
    ∧ authenticate_session bot0 0 (some "c") false R200noBody 0 = .ok (false, bot0) :=
  ⟨(c4_auth_session_soft_failures bot0 0 (some "c") R500 0).1 (by decide),
   (c4_auth_session_soft_failures bot0 0 (some "c") R200noBody 0).2 rfl rfl⟩

/-- Claim C6: `authorize_application` returns true and opens the response's
resolved URL exactly on HTTP 200 and returns false otherwise (it cannot
raise: its result type is a plain triple); its request carries the query
parameters `client_id`, `response_type=code`, the freshly generated `state`
nonce, the fixed redirect URI, `duration=permanent` and
`scope "edit submit"`. -/
theorem c6_authorize_application_spec (b : BotState) (uuidState : String)
    (resp : HttpResponse) :
    (authorize_application b uuidState resp).1 = decide (resp.status_code = 200)
    ∧ (authorize_application b uuidState resp).2.1 =
        (if resp.status_code = 200 then some resp.url else none)
    ∧ (authorize_application b uuidState resp).2.2.params = [
        ("client_id", b.client_id),
        ("response_type", "code"),
        ("state", uuidState),
        ("redirect_uri", REDIRECT_URI),
        ("duration", "permanent"),
        ("scope", "edit submit")] := by
  refine ⟨?_, ?_, ?_⟩ <;> by_cases h : resp.status_code = 200 <;>
    simp [authorize_application, h]

def tokA : Token :=
  { access_token := .str "A", expires_in := 3600,
    scope := .str "edit submit", refresh_token := .str "R",
    token_type := "bearer", issued_at := 0 }

/-- Claim C7: a token's string rendering is
`token_type ++ " " ++ access_token`; that rendering (through
`f"{self.token}"`) is the value placed in the Authorization header of the
comment request; and after a successful first-time `authenticate_session`
whose response body carries access_token `"A"`, the controller's
Authorization header renders as `"bearer A"`. -/
theorem c7_token_render_auth_header (t : Token) (b : BotState)
    (classDefTime now : Int) :
    t.pyStr = t.token_type ++ " " ++ t.access_token.pyStr
    ∧ (postRequest b).authorization = pyStrOptToken b.token
    ∧ authenticate_session b classDefTime (some "c") false respA now =
        .ok (true, { b with token := some { tokA with issued_at := classDefTime } })
    ∧ (postRequest
        { b with token := some { tokA with issued_at := classDefTime } }).authorization
      = "bearer A" := by
  refine ⟨rfl, rfl, ?_, rfl⟩
  rfl

/-- Claim C8: with a token present, `check_token_expiration` is a no-op
(state unchanged, refresh-call flag false) when the token is not expired;
when it is expired it performs exactly `authenticate_session(is_refresh :=
true)`; and whenever that refresh call returns normally it returns normally
with the refreshed state, regardless of the refresh call's boolean outcome
(a failed refresh is not escalated). -/
theorem c8_check_token_expiration_spec (b : BotState) (t : Token)
    (classDefTime now : Int) (refreshResp : HttpResponse)
    (htok : b.token = some t) :
    (t.is_expired now = false →
      check_token_expiration b classDefTime refreshResp now = .ok (b, false))
    ∧ (t.is_expired now = true →
      check_token_expiration b classDefTime refreshResp now =
        Except.map (fun p => (p.2, true))
          (authenticate_session b classDefTime none true refreshResp now))
    ∧ (∀ res b2, t.is_expired now = true →
      authenticate_session b classDefTime none true refreshResp now = .ok (res, b2) →
      check_token_expiration b classDefTime refreshResp now = .ok (b2, true)) := by
  refine ⟨?_, ?_, ?_⟩
  · intro h
    simp [check_token_expiration, htok, h]
  · intro h
    simp only [check_token_expiration, htok, h, Bool.not_true, Bool.false_eq_true,
      if_false]
    cases ha : authenticate_session b classDefTime none true refreshResp now with
    | error e => simp [Except.map]
    | ok p =>
      obtain ⟨res, b2⟩ := p
      simp [Except.map]
  · intro res b2 h ha
    simp [check_token_expiration, htok, h, ha]

/-- Witness for C8 at a fresh (non-expired) concrete token: no state change
and no refresh call. -/
theorem c8_check_token_expiration_spec_witness :
    check_token_expiration bot1 0 R500 0 = .ok (bot1, false) :=
  (c8_check_token_expiration_spec bot1 tok0 0 0 R500 rfl).1 rfl

/-- A successful first-time exchange always stores a token whose
`issued_at` is the class-definition timestamp (the dataclass default),
not the exchange time. -/
theorem auth_first_time_token_shape (b : BotState) (classDefTime : Int)
    (code : Option String) (resp : HttpResponse) (now : Int) (b2 : BotState)
    (h : authenticate_session b classDefTime code false resp now = .ok (true, b2)) :
    ∃ t2 : Token, b2.token = some t2 ∧ t2.issued_at = classDefTime := by
  by_cases hs : resp.status_code = 200
  · cases hb : resp.body with
    | none => simp [authenticate_session, hs, hb] at h
    | some j =>
      cases hga : dictGet j "access_token" with
      | error m => simp [authenticate_session, hs, hb, hga, liftRaise] at h
      | ok a =>
        cases hge : (dictGet j "expires_in").bind pyInt with
        | error m => simp [authenticate_session, hs, hb, hga, hge, liftRaise] at h
        | ok e =>
          cases hgs : dictGet j "scope" with
          | error m => simp [authenticate_session, hs, hb, hga, hge, hgs, liftRaise] at h
          | ok s =>
            cases hgr : dictGet j "refresh_token" with
            | error m =>
              simp [authenticate_session, hs, hb, hga, hge, hgs, hgr, liftRaise] at h
            | ok r =>
              simp [authenticate_session, hs, hb, hga, hge, hgs, hgr, liftRaise] at h
              refine ⟨{ access_token := a,
                        expires_in := e,
                        scope := s,
                        refresh_token := r,
                        token_type := "bearer",
                        issued_at := classDefTime }, ?_, rfl⟩
              rw [← h]
  · simp [authenticate_session, hs] at h

/-- Claim C9: every token constructed by a first-time exchange (which omits
the `issued_at` argument) receives the single timestamp captured when the
`Token` class was defined; any two such tokens share that timestamp, so a
token's `issued_at` is not the moment of the exchange that created it. -/
theorem c9_issued_at_class_def_time (b b' : BotState) (classDefTime : Int)
    (code code' : Option String) (resp resp' : HttpResponse) (now now' : Int)
    (b2 b2' : BotState) (t2 t2' : Token)
    (h : authenticate_session b classDefTime code false resp now = .ok (true, b2))
    (ht : b2.token = some t2)
    (h' : authenticate_session b' classDefTime code' false resp' now' = .ok (true, b2'))
    (ht' : b2'.token = some t2') :
    t2.issued_at = classDefTime ∧ t2'.issued_at = classDefTime
    ∧ t2.issued_at = t2'.issued_at
    ∧ (now ≠ classDefTime → t2.issued_at ≠ now) := by
  obtain ⟨u, hu, hi⟩ := auth_first_time_token_shape b classDefTime code resp now b2 h
  obtain ⟨u', hu', hi'⟩ := auth_first_time_token_shape b' classDefTime code' resp' now' b2' h'
  rw [ht] at hu
  rw [ht'] at hu'
  have e1 : t2 = u := by injection hu
  have e2 : t2' = u' := by injection hu'
  subst e1
  subst e2
  refine ⟨hi, hi', by rw [hi, hi'], fun hne => by rw [hi]; exact fun hh => hne hh.symm⟩

/-- Witness for C9: a concrete exchange at time 5 (class defined at time 0)
whose token reports `issued_at = 0`, not 5. -/
theorem c9_issued_at_class_def_time_witness :
    tokA.issued_at = 0 ∧ tokA.issued_at ≠ 5 := by
  have h := c9_issued_at_class_def_time bot0 bot0 0 (some "c") (some "c") respA respA 5 7
    { bot0 with token := some tokA } { bot0 with token := some tokA } tokA tokA
    rfl rfl rfl rfl
  exact ⟨h.1, h.2.2.2 (by decide)⟩

def respOnlyAccess : HttpResponse :=
  { status_code := 200, body := some [("access_token", .str "A")] }

/-- Claim C10: on HTTP 200 with a parseable JSON body that lacks an expected
key, the operation raises (an `Except.error`) rather than returning false:
`post_comment` raises when the body lacks `"name"`, and first-time
`authenticate_session` raises when the body lacks any of `"access_token"`,
`"expires_in"`, `"scope"`, `"refresh_token"`; in both cases the raise
carries the unmodified bot state, so the controller's token stays unset. -/
theorem c10_missing_key_raises (b : BotState) (t : Token) (classDefTime now : Int)
    (rr resp : HttpResponse) (j : Json) (code : Option String) :
    (b.token = some t → t.is_expired now = false → resp.status_code = 200 →
      resp.body = some j → (∃ m, dictGet j "name" = .error m) →
      ∃ m, post_comment b classDefTime rr resp now = .error (m, b))
    ∧ (resp.status_code = 200 → resp.body = some j →
      ((∃ m, dictGet j "access_token" = .error m)
        ∨ (∃ m, dictGet j "expires_in" = .error m)
        ∨ (∃ m, dictGet j "scope" = .error m)
        ∨ (∃ m, dictGet j "refresh_token" = .error m)) →
      ∃ m, authenticate_session b classDefTime code false resp now = .error (m, b)) := by
  constructor
  · intro htok hfresh hs hb hname
    obtain ⟨m, hg⟩ := hname
    refine ⟨m, ?_⟩
    simp [post_comment, check_token_expiration, htok, hfresh, hs, hb, hg]
  · intro hs hb hmiss
    cases hga : dictGet j "access_token" with
    | error m =>
      exact ⟨m, by simp [authenticate_session, hs, hb, hga, liftRaise]⟩
    | ok a =>
      cases hge : (dictGet j "expires_in").bind pyInt with
      | error m =>
        exact ⟨m, by simp [authenticate_session, hs, hb, hga, hge, liftRaise]⟩
      | ok e =>
        cases hgs : dictGet j "scope" with
        | error m =>
          exact ⟨m, by simp [authenticate_session, hs, hb, hga, hge, hgs, liftRaise]⟩
        | ok s =>
          cases hgr : dictGet j "refresh_token" with
          | error m =>
            exact ⟨m, by simp [authenticate_session, hs, hb, hga, hge, hgs, hgr, liftRaise]⟩
          | ok r =>
            exfalso
            rcases hmiss with ⟨m, hm⟩ | ⟨m, hm⟩ | ⟨m, hm⟩ | ⟨m, hm⟩
            · rw [hga] at hm
              cases hm
            · rw [hm] at hge
              simp [Except.bind] at hge
            · rw [hgs] at hm
              cases hm
            · rw [hgr] at hm
              cases hm

/-- Witness for C10: a 200 body without `"name"` makes `post_comment` raise,
and a 200 body carrying only `access_token` makes `authenticate_session`
raise, each leaving the state unchanged. -/
theorem c10_missing_key_raises_witness :
    (∃ m, post_comment bot1 0 R500 respNoName 0 = .error (m, bot1))
    ∧ (∃ m, authenticate_session bot0 0 (some "c") false respOnlyAccess 0 =
        .error (m, bot0)) := by
  constructor
  · exact (c10_missing_key_raises bot1 tok0 0 0 R500 respNoName
      [("junk", .num 1)] none).1 rfl rfl rfl rfl ⟨"KeyError: name", rfl⟩
  · exact (c10_missing_key_raises bot0 tok0 0 0 R500 respOnlyAccess
      [("access_token", .str "A")] (some "c")).2 rfl rfl
      (Or.inr (Or.inl ⟨"KeyError: expires_in", rfl⟩))

def respName : HttpResponse :=
  { status_code := 200, body := some [("name", .str "t1_abc")] }

/-- Counterexample to claim C5 as stated: `respNoName` is an HTTP 200
response with a parseable JSON body (no `"name"` key), yet `post_comment`
neither returns true and records a fullname nor returns false — it raises
KeyError.  So "returns true ... exactly when the endpoint responds HTTP 200
with a parseable JSON body" fails at this input. -/
theorem c5_post_comment_cex :
    respNoName.status_code = 200
    ∧ respNoName.body.isSome = true
    ∧ post_comment bot1 0 R500 respNoName 0 = .error ("KeyError: name", bot1) :=
  ⟨rfl, rfl, rfl⟩

/-- Claim C5 (amended): with a token present and not expired, `post_comment`
returns true and records the new comment's fullname exactly when the
endpoint responds HTTP 200 with a parseable JSON body that contains the key
`"name"`; on a non-200 status or an unparseable 200 body it returns false,
the non-200 case leaving the state (hence `last_comment_fullname`)
unchanged; a parseable 200 body without `"name"` raises KeyError instead. -/
theorem c5_post_comment_spec (b : BotState) (t : Token) (classDefTime now : Int)
    (rr resp : HttpResponse)
    (htok : b.token = some t) (hfresh : t.is_expired now = false) :
    (∀ j v, resp.status_code = 200 → resp.body = some j →
      dictGet j "name" = .ok v →
      post_comment b classDefTime rr resp now =
        .ok (true, { b with last_comment_fullname := some v }))
    ∧ (resp.status_code ≠ 200 →
      post_comment b classDefTime rr resp now = .ok (false, b))
    ∧ (resp.status_code = 200 → resp.body = none →
      post_comment b classDefTime rr resp now = .ok (false, b))
    ∧ (∀ j m, resp.status_code = 200 → resp.body = some j →
      dictGet j "name" = .error m →
      post_comment b classDefTime rr resp now = .error (m, b))
    ∧ (∀ b2, post_comment b classDefTime rr resp now = .ok (true, b2) →
      resp.status_code = 200 ∧ resp.body ≠ none) := by
  refine ⟨?_, ?_, ?_, ?_, ?_⟩
  · intro j v hs hb hg
    simp [post_comment, check_token_expiration, htok, hfresh, hs, hb, hg]
  · intro hs
    simp [post_comment, check_token_expiration, htok, hfresh, hs]
  · intro hs hb
    simp [post_comment, check_token_expiration, htok, hfresh, hs, hb]
  · intro j m hs hb hg
    simp [post_comment, check_token_expiration, htok, hfresh, hs, hb, hg]
  · intro b2 hpost
    by_cases hs : resp.status_code = 200
    · cases hb : resp.body with
      | none =>
        simp [post_comment, check_token_expiration, htok, hfresh, hs, hb] at hpost
      | some j => exact ⟨hs, by simp [hb]⟩
    · simp [post_comment, check_token_expiration, htok, hfresh, hs] at hpost

/-- Witness for C5 (amended): a 200 response whose body carries
`name = "t1_abc"` makes `post_comment` return true and record it. -/
theorem c5_post_comment_spec_witness :
    post_comment bot1 0 R500 respName 0 =
      .ok (true, { bot1 with last_comment_fullname := some (.str "t1_abc") }) :=
  (c5_post_comment_spec bot1 tok0 0 0 R500 respName rfl rfl).1
    [("name", .str "t1_abc")] (.str "t1_abc") rfl rfl rfl

/-- Claim C3: the `run` cycle.  A failed post terminates the loop
immediately (trace `[apiPost false]`, no delete attempted); after a
successful post and the 15-minute sleep, when a last-comment identifier is
present the delete runs, a failed delete terminating the loop and a
successful delete being followed by the 15-second sleep and the next
iteration; and in every trace `run` produces, a failed post is the final
event — no `delete_comment` call ever occurs after a failed
`post_comment`. -/
theorem c3_run_cycle (classDefTime : Int) (env : Nat → IterEnv) (fuel i : Nat)
    (b : BotState) :
    (∀ b1, post_comment b classDefTime (env i).refreshRespPost (env i).postResp
        (env i).nowPost = .ok (false, b1) →
      run classDefTime env (fuel + 1) i b = .ok ([.apiPost false], true))
    ∧ (∀ b1 b2, post_comment b classDefTime (env i).refreshRespPost (env i).postResp
        (env i).nowPost = .ok (true, b1) →
      truthyOpt b1.last_comment_fullname = true →
      delete_comment b1 classDefTime (env i).refreshRespDel (env i).delResp
        (env i).nowDel = .ok (false, b2) →
      run classDefTime env (fuel + 1) i b =
        .ok ([.apiPost true, .sleepLong, .apiDel false], true))
    ∧ (∀ b1 b2, post_comment b classDefTime (env i).refreshRespPost (env i).postResp
        (env i).nowPost = .ok (true, b1) →
      truthyOpt b1.last_comment_fullname = true →
      delete_comment b1 classDefTime (env i).refreshRespDel (env i).delResp
        (env i).nowDel = .ok (true, b2) →
      run classDefTime env (fuel + 1) i b =
        Except.map
          (fun p => (.apiPost true :: .sleepLong :: .apiDel true :: .sleepShort :: p.1, p.2))
          (run classDefTime env fuel (i + 1) b2))
    ∧ (∀ tr halted, run classDefTime env fuel i b = .ok (tr, halted) →
      ∀ pre suf, tr = pre ++ .apiPost false :: suf → suf = []) := by
  refine ⟨?_, ?_, ?_, ?_⟩
  · intro b1 hp
    simp [run, hp]
  · intro b1 b2 hp htr hd
    simp [run, hp, htr, hd]
  · intro b1 b2 hp htr hd
    simp only [run, hp, htr, if_true, hd]
    cases hrec : run classDefTime env fuel (i + 1) b2 with
    | error e => simp [Except.map]
    | ok p =>
      obtain ⟨tr, halted⟩ := p
      simp [Except.map]
  · intro tr halted h pre suf heq
    exact postFailIsLast_suffix_nil pre tr suf
      (run_postFailIsLast classDefTime env fuel i b tr halted h) heq

/-- Witness for C3: with every endpoint answering 500, the very first post
fails and the loop stops with no delete attempted. -/
theorem c3_run_cycle_witness :
    run 0 env0 1 0 bot1 = .ok ([.apiPost false], true) :=
  (c3_run_cycle 0 env0 0 0 bot1).1 bot1 rfl
